import Mathlib

/-!
Shallow embedding of the adaptive difficulty-tracking engine
(`src/services/adaptive_learning.py`) and the retrieval-augmented answer
pipeline (`src/services/rag_service.py`) of the AI-Tutor repository.

Python dicts are modelled as insertion-ordered association lists (keys are
unique for every state the system itself builds); `datetime` fields
(`timestamp`, `last_activity`) carry no information used by any verified
property and are elided; Python floats are modelled as rationals; a Python
function that can raise is modelled in `Except`, the error value carrying
the in-memory state left behind by the partial update.
-/

namespace AITutor

/-- Tally of one difficulty (or cognitive-level) bucket:
the dict `{'correct': ..., 'total': ...}` of the source. -/
structure Bucket where
  correct : Nat
  total : Nat
  deriving DecidableEq

/-- Increment `total`, and `correct` when the attempt was correct
(`topic_stats['total'] += 1; if attempt.correct: topic_stats['correct'] += 1`). -/
def Bucket.record (b : Bucket) (isCorrect : Bool) : Bucket :=
  { correct := b.correct + (if isCorrect then 1 else 0), total := b.total + 1 }

/-- Per-topic performance map: `record_attempt` pre-initializes exactly the
three keys `easy`, `medium`, `hard` (`adaptive_learning.py` lines 166-170),
so the value of `topic_performance[topic]` always has exactly these buckets. -/
structure TopicStats where
  easy : Bucket
  medium : Bucket
  hard : Bucket
  deriving DecidableEq

/-- The freshly initialized `{'easy': {'correct': 0, 'total': 0}, ...}` value. -/
def TopicStats.blank : TopicStats := ⟨⟨0, 0⟩, ⟨0, 0⟩, ⟨0, 0⟩⟩

/-- Python dict indexing `topic_stats[difficulty]`: `none` models the
`KeyError` raised for a difficulty outside the three fixed buckets. -/
def TopicStats.get (ts : TopicStats) (d : String) : Option Bucket :=
  if d = "easy" then some ts.easy
  else if d = "medium" then some ts.medium
  else if d = "hard" then some ts.hard
  else none

/-- The difficulty strings for which `topic_stats[difficulty]` does not raise. -/
def validDifficulty (d : String) : Prop :=
  d = "easy" ∨ d = "medium" ∨ d = "hard"

instance (d : String) : Decidable (validDifficulty d) := by
  unfold validDifficulty; infer_instance

/-- Apply one attempt to the bucket named by `d` (total when `d` is one of the
three fixed difficulties; for other `d` the source raises before reaching
this update, see `record_attempt`). -/
def TopicStats.applyAttempt (ts : TopicStats) (d : String) (isCorrect : Bool) : TopicStats :=
  if d = "easy" then { ts with easy := ts.easy.record isCorrect }
  else if d = "medium" then { ts with medium := ts.medium.record isCorrect }
  else if d = "hard" then { ts with hard := ts.hard.record isCorrect }
  else ts

/-- The event `QuestionAttempt` of the source (dataclass, lines 14-24);
`timestamp` is elided. -/
structure QuestionAttempt where
  question_id : String
  topic : String
  difficulty : String
  cognitive_level : String
  correct : Bool
  time_taken : ℚ
  confidence : ℚ
  deriving DecidableEq

/-- The aggregate `StudentProfile` (dataclass, lines 26-36) together with the
two attributes the source attaches dynamically: `recent_times` (written by
`_update_learning_pace`) and `recent_attempts` (read with
`getattr(profile, 'recent_attempts', [])` in `generate_adaptive_questions`
but never written anywhere); `last_activity` is elided. -/
structure StudentProfile where
  user_id : String
  topic_performance : List (String × TopicStats)
  cognitive_levels : List (String × Bucket)
  learning_pace : ℚ
  preferred_difficulty : String
  total_questions : Nat
  correct_answers : Nat
  recent_times : List ℚ
  recent_attempts : List QuestionAttempt
  deriving DecidableEq

/-- The profile `record_attempt` creates for an unknown user (lines 144-154). -/
def newProfile (uid : String) : StudentProfile :=
  { user_id := uid, topic_performance := [], cognitive_levels := [],
    learning_pace := 0, preferred_difficulty := "medium",
    total_questions := 0, correct_answers := 0,
    recent_times := [], recent_attempts := [] }

/-- Python dict read `m[k]` / `m.get(k)` on an insertion-ordered dict. -/
def alookup {β : Type} (k : String) : List (String × β) → Option β
  | [] => none
  | e :: rest => if e.1 = k then some e.2 else alookup k rest

/-- Python dict write `m[k] = f m[k]` for a key already present. -/
def updateEntry {β : Type} (k : String) (f : β → β) : List (String × β) → List (String × β)
  | [] => []
  | e :: rest => if e.1 = k then (e.1, f e.2) :: rest else e :: updateEntry k f rest

/-- The in-memory `self.students` dict of `AdaptiveLearningSystem`. -/
abbrev Students := List (String × StudentProfile)

/-- Python dict write `self.students[user_id] = profile` (insert or replace). -/
def Students.set (students : Students) (uid : String) (p : StudentProfile) : Students :=
  if (alookup uid students).isSome then updateEntry uid (fun _ => p) students
  else students ++ [(uid, p)]

/-- The profile the source works on: `self.students[user_id]` after the
create-if-absent step of `record_attempt`. -/
def profileOf (students : Students) (uid : String) : StudentProfile :=
  (alookup uid students).getD (newProfile uid)

/-- The `statistics.mean` of the source, on rationals. -/
def listMean (l : List ℚ) : ℚ := l.sum / l.length

/-- Python `lst[-n:]`: the suffix of at most `n` elements. -/
def tailAtMost (n : Nat) (l : List ℚ) : List ℚ := l.drop (l.length - n)

/-- The pace formula of `_update_learning_pace`:
`60.0 / avg_time if avg_time > 0 else 0.0`. -/
def paceOf (recent : List ℚ) : ℚ :=
  if listMean recent > 0 then 60 / listMean recent else 0

/-- The method `_update_learning_pace` (lines 193-204): append the time taken,
truncate to the last 20 entries, recompute the pace. -/
def update_learning_pace (p : StudentProfile) (a : QuestionAttempt) : StudentProfile :=
  let r1 := p.recent_times ++ [a.time_taken]
  let r2 := if r1.length > 20 then r1.drop (r1.length - 20) else r1
  { p with recent_times := r2, learning_pace := paceOf r2 }

/-- Average per-topic accuracy of one difficulty bucket over the topics that
attempted it, as accumulated by `_update_preferred_difficulty` (lines 206-225):
`difficulty_scores[d] / difficulty_counts[d]` when the count is positive, else 0. -/
def avgDifficultyScore (tp : List (String × TopicStats)) (proj : TopicStats → Bucket) : ℚ :=
  let attempted := (tp.map fun e => proj e.2).filter fun b => 0 < b.total
  if attempted.length > 0 then
    (attempted.map fun b => (b.correct : ℚ) / b.total).sum / attempted.length
  else 0

/-- The method `_update_preferred_difficulty` (lines 206-233): threshold cascade
hard ≥ 0.7, else medium ≥ 0.6, else easy, over the global bucket averages. -/
def update_preferred_difficulty (p : StudentProfile) : StudentProfile :=
  let pref :=
    if avgDifficultyScore p.topic_performance TopicStats.hard ≥ 7/10 then "hard"
    else if avgDifficultyScore p.topic_performance TopicStats.medium ≥ 6/10 then "medium"
    else "easy"
  { p with preferred_difficulty := pref }

/-- The state of the profile at the moment `record_attempt` reads
`profile.topic_performance[attempt.topic][attempt.difficulty]` (line 172):
basic stats already updated (lines 158-162) and the per-topic map ensured with
its three zeroed buckets (lines 164-170); everything later untouched. -/
def partial_profile (p0 : StudentProfile) (a : QuestionAttempt) : StudentProfile :=
  let p1 := { p0 with
    total_questions := p0.total_questions + 1,
    correct_answers := p0.correct_answers + (if a.correct then 1 else 0) }
  let tp2 := if (alookup a.topic p1.topic_performance).isSome then p1.topic_performance
             else p1.topic_performance ++ [(a.topic, TopicStats.blank)]
  { p1 with topic_performance := tp2 }

/-- The profile after a fully applied `record_attempt` (difficulty is one of
the three fixed buckets, so line 172 did not raise): bucket and cognitive-level
tallies incremented (lines 172-183), then pace (line 186) and preferred
difficulty (line 189) recomputed. -/
def attempt_profile (p0 : StudentProfile) (a : QuestionAttempt) : StudentProfile :=
  let p2 := partial_profile p0 a
  let tp3 := updateEntry a.topic (fun ts => ts.applyAttempt a.difficulty a.correct)
               p2.topic_performance
  let p3 := { p2 with topic_performance := tp3 }
  let cl4 :=
    if (alookup a.cognitive_level p3.cognitive_levels).isSome then
      updateEntry a.cognitive_level (fun b => b.record a.correct) p3.cognitive_levels
    else p3.cognitive_levels ++ [(a.cognitive_level, Bucket.record ⟨0, 0⟩ a.correct)]
  let p4 := { p3 with cognitive_levels := cl4 }
  update_preferred_difficulty (update_learning_pace p4 a)

/-- The method `record_attempt` (lines 142-191). A difficulty outside the three
fixed buckets raises `KeyError` at `topic_performance[topic][difficulty]`
(line 172); the `.error` value carries the in-memory `students` dict at that
point, holding the partially updated profile. File persistence (`_save_data`,
errors swallowed) is elided. -/
def record_attempt (students : Students) (uid : String) (a : QuestionAttempt) :
    Except Students Students :=
  let p0 := profileOf students uid
  if validDifficulty a.difficulty then
    .ok (Students.set students uid (attempt_profile p0 a))
  else
    .error (Students.set students uid (partial_profile p0 a))

/-- A sequence of `record_attempt` calls for one user, stopping at the first
raised `KeyError` as the Python caller would. -/
def record_all (students : Students) (uid : String) (attempts : List QuestionAttempt) :
    Except Students Students :=
  attempts.foldlM (fun s a => record_attempt s uid a) students

/-- Topic-local bucket score of `get_recommended_difficulty` (lines 247-252):
`correct/total` when the bucket has at least 3 attempts, else 0. -/
def bucketTopicScore (b : Bucket) : ℚ :=
  if 3 ≤ b.total then (b.correct : ℚ) / b.total else 0

/-- The method `get_recommended_difficulty` (lines 235-263). An empty topic
string is falsy in Python, so it also falls back to the global
`preferred_difficulty`. -/
def get_recommended_difficulty (students : Students) (uid : String) (topic : String) : String :=
  match alookup uid students with
  | none => "medium"
  | some p =>
    if topic ≠ "" then
      match alookup topic p.topic_performance with
      | some ts =>
        if bucketTopicScore ts.hard ≥ 7/10 then "hard"
        else if bucketTopicScore ts.medium ≥ 6/10 then "medium"
        else "easy"
      | none => p.preferred_difficulty
    else p.preferred_difficulty

/-- Total correct answers of a topic summed across its difficulty buckets. -/
def topicTotalCorrect (ts : TopicStats) : Nat :=
  ts.easy.correct + ts.medium.correct + ts.hard.correct

/-- Total attempts of a topic summed across its difficulty buckets. -/
def topicTotalQuestions (ts : TopicStats) : Nat :=
  ts.easy.total + ts.medium.total + ts.hard.total

/-- Sum of all per-bucket `total` counters over the whole topic map. -/
def totalInBuckets (tp : List (String × TopicStats)) : Nat :=
  (tp.map fun e => topicTotalQuestions e.2).sum

/-- The `topic_scores` list built by `get_weak_topics` (lines 271-283): one
`(topic, accuracy)` pair per topic with at least 5 attempts overall. -/
def topicScores (p : StudentProfile) : List (String × ℚ) :=
  p.topic_performance.filterMap fun e =>
    if 5 ≤ topicTotalQuestions e.2 then
      some (e.1, (topicTotalCorrect e.2 : ℚ) / topicTotalQuestions e.2)
    else none

/-- Comparison used by `topic_scores.sort(key=lambda x: x[1])`. -/
def scoreLE (x y : String × ℚ) : Prop := x.2 ≤ y.2

instance : DecidableRel scoreLE := fun x y => inferInstanceAs (Decidable (x.2 ≤ y.2))

instance : IsTotal (String × ℚ) scoreLE := ⟨fun a b => le_total a.2 b.2⟩

instance : IsTrans (String × ℚ) scoreLE := ⟨fun _ _ _ h1 h2 => le_trans h1 h2⟩

/-- The method `get_weak_topics` (lines 265-287): ascending sort by accuracy,
then the first `limit` pairs. -/
def get_weak_topics (students : Students) (uid : String) (limit : Nat) : List (String × ℚ) :=
  match alookup uid students with
  | none => []
  | some p => (List.insertionSort scoreLE (topicScores p)).take limit

/-- The dict returned by `get_strength_analysis` (lines 289-354). -/
structure StrengthAnalysis where
  overall_score : ℚ
  total_questions : Nat
  correct_answers : Nat
  learning_pace : ℚ
  preferred_difficulty : String
  weak_topics : List (String × ℚ)
  topic_performance : List (String × ℚ)
  cognitive_levels : List (String × Nat)
  recommendations : List String
  deriving DecidableEq

/-- The value `cognitive_levels[key]` ends with in `get_strength_analysis`
(lines 325-328): the recorded `total` when the profile has the key, else the
initial 0. -/
def clTotal (cls : List (String × Bucket)) (k : String) : Nat :=
  match alookup k cls with
  | some b => b.total
  | none => 0

/-- The method `get_strength_analysis` (lines 289-354). Note the source seeds
the reported `cognitive_levels` dict with the keys `easy`, `medium`, `hard`
(line 325) and only copies counts for those keys. -/
def get_strength_analysis (students : Students) (uid : String) : StrengthAnalysis :=
  match alookup uid students with
  | none =>
    { overall_score := 0, total_questions := 0, correct_answers := 0,
      learning_pace := 0, preferred_difficulty := "medium", weak_topics := [],
      topic_performance := [],
      cognitive_levels := [("easy", 0), ("medium", 0), ("hard", 0)],
      recommendations := [] }
  | some p =>
    let overall : ℚ :=
      if 0 < p.total_questions then (p.correct_answers : ℚ) / p.total_questions else 0
    let tperf := p.topic_performance.map fun e =>
      (e.1, if 0 < topicTotalQuestions e.2 then
              (topicTotalCorrect e.2 : ℚ) / topicTotalQuestions e.2
            else 0)
    let cls := [("easy", clTotal p.cognitive_levels "easy"),
                ("medium", clTotal p.cognitive_levels "medium"),
                ("hard", clTotal p.cognitive_levels "hard")]
    let weak := get_weak_topics students uid 3
    let recs :=
      (if overall < 1/2 then ["Focus on fundamental concepts and basic recall questions"]
       else if overall < 7/10 then
         ["Practice application-based questions to improve understanding"]
       else ["Challenge yourself with analytical and complex problem-solving questions"]) ++
      (if weak ≠ [] then
         ["Focus on improving: " ++ String.intercalate ", " (weak.map Prod.fst)]
       else [])
    { overall_score := overall, total_questions := p.total_questions,
      correct_answers := p.correct_answers, learning_pace := p.learning_pace,
      preferred_difficulty := p.preferred_difficulty, weak_topics := weak,
      topic_performance := tperf, cognitive_levels := cls, recommendations := recs }

/-- The dict returned by `generate_adaptive_questions` (lines 375-380). -/
structure AdaptiveQuestionPlan where
  recommended_difficulty : String
  num_questions : Nat
  topic : String
  adaptive_reasoning : String
  deriving DecidableEq

/-- The method `generate_adaptive_questions` (lines 356-380): start from the
topic-scoped recommendation, then adjust by the accuracy of
`getattr(profile, 'recent_attempts', [])[-10:]`. -/
def generate_adaptive_questions (students : Students) (uid : String) (topic : String)
    (num_questions : Nat) : AdaptiveQuestionPlan :=
  let base := get_recommended_difficulty students uid topic
  let d :=
    match alookup uid students with
    | none => base
    | some p =>
      let recent := p.recent_attempts.drop (p.recent_attempts.length - 10)
      if recent.length > 0 then
        let recent_score : ℚ := ((recent.filter fun a => a.correct).length : ℚ) / recent.length
        if recent_score > 4/5 ∧ base ≠ "hard" then "hard"
        else if recent_score < 2/5 ∧ base ≠ "easy" then "easy"
        else base
      else base
  { recommended_difficulty := d, num_questions := num_questions, topic := topic,
    adaptive_reasoning :=
      "Based on your performance in " ++ topic ++ ", we recommend " ++ d ++ " level questions" }

/-- A chunk as packaged by `RAGService.search_relevant_content` (lines 227-235);
`pdf_filename` is the metadata field read with
`chunk['metadata'].get('pdf_filename', 'Unknown')`, `none` when absent. The
chunk id and the rest of the metadata are not consulted by the answerer. -/
structure RetrievedChunk where
  content : String
  pdf_filename : Option String
  distance : ℚ
  deriving DecidableEq

/-- The answer dict of `rag_service.py`. `sources` is `list(set(...))` in the
source, a deduplicated collection with unspecified order, modelled as a
`Finset`; `context_chunks` is `none` for the error dicts, which carry no such
key. -/
structure AnswerResult where
  answer : String
  confidence : ℚ
  sources : Finset String
  context_chunks : Option Nat
  answer_type : String
  deriving DecidableEq

/-- The external LLM collaborator `llm_service.generate_answer`: may fail
(modelled as `Except`, the error value standing for the raised exception). -/
abbrev LLM := String → Except String String

/-- Python `"\n\n".join(chunk['content'] for chunk in chunks)`. -/
def contextTextOf (chunks : List RetrievedChunk) : String :=
  String.intercalate "\n\n" (chunks.map fun c => c.content)

/-- The curriculum-grounded prompt of `generate_answer_with_context`
(lines 296-308). -/
def curriculumPrompt (contextText query : String) : String :=
  "Based on the following curriculum content, please answer the student\x27s question accurately and helpfully.\n\nContext from curriculum:\n"
    ++ contextText
    ++ "\n\nStudent\x27s Question: "
    ++ query
    ++ "\n\nPlease provide:\n1. A clear, accurate answer based on the curriculum content\n2. Additional explanation if needed\n3. Any important concepts the student should understand\n\nAnswer:"

/-- The degraded-context prompt of `_generate_general_knowledge_answer`
(lines 337-350), used when some chunks exist but confidence was low. -/
def gkPromptWithContext (contextText query : String) : String :=
  "The student asked: "
    ++ query
    ++ "\n\nI have some related curriculum content, but it may not be directly relevant:\n"
    ++ contextText
    ++ "\n\nPlease provide a comprehensive answer using your general knowledge. If the curriculum content is relevant, incorporate it. If not, provide a thorough explanation based on general knowledge.\n\nPlease include:\n1. A clear, accurate answer\n2. Additional context and explanations\n3. Related concepts that might be helpful\n4. Suggestions for further learning if applicable\n\nAnswer:"

/-- The no-context prompt of `_generate_general_knowledge_answer`
(lines 353-363). -/
def gkPromptPlain (query : String) : String :=
  "The student asked: "
    ++ query
    ++ "\n\nPlease provide a comprehensive answer using your general knowledge. This appears to be a general question not covered in the uploaded curriculum materials.\n\nPlease include:\n1. A clear, accurate answer\n2. Additional context and explanations\n3. Related concepts that might be helpful\n4. Suggestions for further learning if applicable\n\nAnswer:"

/-- Python `np.mean([chunk['distance'] for chunk in chunks])`. -/
def meanDistance (chunks : List RetrievedChunk) : ℚ :=
  (chunks.map fun c => c.distance).sum / chunks.length

/-- The confidence computed from retrieved context (line 288):
`max(0.1, 1.0 - avg_distance)`. -/
def contextConfidence (chunks : List RetrievedChunk) : ℚ :=
  max (1/10) (1 - meanDistance chunks)

/-- Python `round(x, 2)` on the reported confidence (float banker rounding is
elided; no verified property depends on the rounded value). -/
def round2 (q : ℚ) : ℚ := (round (q * 100) : ℚ) / 100

/-- The method `_generate_general_knowledge_answer` (lines 330-383); its own
`except` clause converts an LLM failure into the `answer_type="error"` dict. -/
def generate_general_knowledge_answer (query : String) (llm : LLM)
    (context_chunks : List RetrievedChunk) : AnswerResult :=
  let prompt :=
    if context_chunks ≠ [] then
      gkPromptWithContext (contextTextOf (context_chunks.take 2)) query
    else gkPromptPlain query
  match llm prompt with
  | .ok ans =>
    { answer := ans, confidence := 7/10, sources := {"General Knowledge"},
      context_chunks := some context_chunks.length, answer_type := "general_knowledge" }
  | .error _ =>
    { answer := "I\x27m sorry, I\x27m having trouble generating an answer right now. Please try again or rephrase your question.",
      confidence := 0, sources := ∅, context_chunks := none, answer_type := "error" }

/-- The method `generate_answer_with_context` (lines 275-328); its `except`
clause converts an LLM failure in the curriculum branch into the
`answer_type="error"` dict (the general-knowledge helper never raises). -/
def generate_answer_with_context (query : String) (context_chunks : List RetrievedChunk)
    (llm : LLM) : AnswerResult :=
  if context_chunks = [] then generate_general_knowledge_answer query llm []
  else
    let sources := context_chunks.map fun c => c.pdf_filename.getD "Unknown"
    let confidence := contextConfidence context_chunks
    if confidence < 3/10 then generate_general_knowledge_answer query llm context_chunks
    else
      match llm (curriculumPrompt (contextTextOf context_chunks) query) with
      | .ok ans =>
        { answer := ans, confidence := round2 confidence, sources := sources.toFinset,
          context_chunks := some context_chunks.length, answer_type := "curriculum_based" }
      | .error _ =>
        { answer := "Sorry, I encountered an error while generating the answer. Please try again.",
          confidence := 0, sources := ∅, context_chunks := none, answer_type := "error" }

/-- The method `process_question` (lines 244-273), parameterized by the chunks
the Content Retriever returned for the query (retrieval and the
`save_question_answer` side effect are external collaborators; the latter
catches its own errors, and the answerer never raises, so the outer `except`
of `process_question` is unreachable from the modelled pipeline). -/
def process_question (query : String) (retrieved : List RetrievedChunk) (llm : LLM) :
    AnswerResult :=
  generate_answer_with_context query retrieved llm

/-- Sample attempt with cognitive level `recall` used to instantiate theorems
on concrete inputs. -/
def recallAttempt : QuestionAttempt :=
  { question_id := "q1", topic := "Math", difficulty := "easy",
    cognitive_level := "recall", correct := true, time_taken := 10, confidence := 1 }

/-- Sample attempt whose difficulty is outside the three fixed buckets. -/
def badAttempt : QuestionAttempt :=
  { question_id := "q2", topic := "Math", difficulty := "expert",
    cognitive_level := "synthesis", correct := true, time_taken := 10, confidence := 1 }

/-- Sample one-user state used to instantiate theorems on concrete inputs. -/
def demoStudents : Students := [("u1", newProfile "u1")]

/-- Sample profile with two all-correct attempts in the hard bucket of one
topic, plus an eligible and an ineligible weak-topic candidate. -/
def demoProfile : StudentProfile :=
  { user_id := "u1",
    topic_performance :=
      [("Math", { easy := ⟨0, 0⟩, medium := ⟨0, 0⟩, hard := ⟨2, 2⟩ }),
       ("Algebra", { easy := ⟨0, 4⟩, medium := ⟨0, 0⟩, hard := ⟨0, 0⟩ }),
       ("Science", { easy := ⟨2, 3⟩, medium := ⟨1, 2⟩, hard := ⟨0, 0⟩ })],
    cognitive_levels := [("recall", ⟨2, 4⟩)],
    learning_pace := 6, preferred_difficulty := "medium",
    total_questions := 11, correct_answers := 5,
    recent_times := [10], recent_attempts := [] }

/-- Sample one-user state holding `demoProfile`. -/
def demoStudents2 : Students := [("u1", demoProfile)]

/-- Sample retrieved chunks close to the query (mean distance 1/5). -/
def demoChunks : List RetrievedChunk :=
  [{ content := "Photosynthesis basics", pdf_filename := some "bio.pdf", distance := 1/10 },
   { content := "Leaf structure", pdf_filename := some "bio.pdf", distance := 3/10 }]

/-- Sample retrieved chunk far from the query (distance 2, confidence floored). -/
def demoFarChunks : List RetrievedChunk :=
  [{ content := "Unrelated passage", pdf_filename := none, distance := 2 }]

/-- Sample LLM collaborator that always answers. -/
def demoLLM : LLM := fun _ => .ok "the answer"

/-- Sample LLM collaborator whose every generate call raises. -/
def failLLM : LLM := fun _ => .error "connection error"

/-! Helper lemmas about the association-list model of Python dicts. -/

theorem alookup_updateEntry_self {β : Type} (k : String) (f : β → β) :
    ∀ (l : List (String × β)) (v : β), alookup k l = some v →
      alookup k (updateEntry k f l) = some (f v) := by
  intro l
  induction l with
  | nil => intro v h; simp [alookup] at h
  | cons e rest ih =>
    intro v h
    by_cases he : e.1 = k
    · simp [alookup, he] at h
      simp [alookup, updateEntry, he, h]
    · simp [alookup, he] at h
      simp [alookup, updateEntry, he, ih v h]

theorem alookup_append_of_none {β : Type} (k : String) :
    ∀ (l m : List (String × β)), alookup k l = none →
      alookup k (l ++ m) = alookup k m := by
  intro l
  induction l with
  | nil => intro m _; simp
  | cons e rest ih =>
    intro m h
    by_cases he : e.1 = k
    · simp [alookup, he] at h
    · simp [alookup, he] at h ⊢
      exact ih m h

theorem alookup_append_of_some {β : Type} (k : String) :
    ∀ (l m : List (String × β)) (v : β), alookup k l = some v →
      alookup k (l ++ m) = some v := by
  intro l
  induction l with
  | nil => intro m v h; simp [alookup] at h
  | cons e rest ih =>
    intro m v h
    by_cases he : e.1 = k
    · simp [alookup, he] at h ⊢; exact h
    · simp [alookup, he] at h ⊢
      exact ih m v h

theorem alookup_set_self (students : Students) (uid : String) (p : StudentProfile) :
    alookup uid (Students.set students uid p) = some p := by
  unfold Students.set
  by_cases h : (alookup uid students).isSome
  · obtain ⟨v, hv⟩ := Option.isSome_iff_exists.mp h
    simp [h]
    exact alookup_updateEntry_self uid (fun _ => p) students v hv
  · simp [h]
    have hn : alookup uid students = none := Option.not_isSome_iff_eq_none.mp h
    rw [alookup_append_of_none uid students [(uid, p)] hn]
    simp [alookup]

theorem profileOf_set_self (students : Students) (uid : String) (p : StudentProfile) :
    profileOf (Students.set students uid p) uid = p := by
  unfold profileOf
  rw [alookup_set_self]
  rfl

/-! Helper lemmas about bucket tallies. -/

theorem ttq_applyAttempt (ts : TopicStats) (d : String) (c : Bool)
    (hd : validDifficulty d) :
    topicTotalQuestions (ts.applyAttempt d c) = topicTotalQuestions ts + 1 := by
  rcases hd with h | h | h <;> subst h <;>
    simp [TopicStats.applyAttempt, topicTotalQuestions, Bucket.record] <;> omega

theorem totalInBuckets_append_blank (l : List (String × TopicStats)) (t : String) :
    totalInBuckets (l ++ [(t, TopicStats.blank)]) = totalInBuckets l := by
  simp [totalInBuckets, TopicStats.blank, topicTotalQuestions]

theorem totalInBuckets_updateEntry (k : String)
    (f : TopicStats → TopicStats)
    (hf : ∀ ts, topicTotalQuestions (f ts) = topicTotalQuestions ts + 1) :
    ∀ l : List (String × TopicStats), (alookup k l).isSome →
      totalInBuckets (updateEntry k f l) = totalInBuckets l + 1 := by
  intro l
  induction l with
  | nil => intro h; simp [alookup] at h
  | cons e rest ih =>
    intro h
    by_cases he : e.1 = k
    · simp [updateEntry, he, totalInBuckets, hf e.2]
      omega
    · simp [alookup, he] at h
      simp [updateEntry, he, totalInBuckets] at ih ⊢
      have := ih h
      omega

theorem alookup_ensure_topic (k : String) (l : List (String × TopicStats)) :
    (alookup k (if (alookup k l).isSome then l
                else l ++ [(k, TopicStats.blank)])).isSome := by
  by_cases h : (alookup k l).isSome
  · simp [h]
  · simp [h]
    have hn : alookup k l = none := Option.not_isSome_iff_eq_none.mp h
    rw [alookup_append_of_none k l _ hn]
    simp [alookup]

/-! Helper lemmas about the bounded `recent_times` suffix. -/

theorem tailAtMost_length_le (n : Nat) (l : List ℚ) : (tailAtMost n l).length ≤ n := by
  simp [tailAtMost]
  omega

theorem tailAtMost_append (n : Nat) (L M : List ℚ) :
    tailAtMost n (tailAtMost n L ++ M) = tailAtMost n (L ++ M) := by
  unfold tailAtMost
  have hk : L.length - n ≤ L.length := Nat.sub_le _ _
  rw [← List.drop_append_of_le_length hk, List.drop_drop]
  congr 1
  simp
  omega

theorem tailAtMost_idem (n : Nat) (L : List ℚ) :
    tailAtMost n (tailAtMost n L) = tailAtMost n L := by
  have := tailAtMost_append n L []
  simpa using this

theorem recent_times_update (p : StudentProfile) (a : QuestionAttempt) :
    (update_learning_pace p a).recent_times
      = tailAtMost 20 (p.recent_times ++ [a.time_taken]) := by
  simp only [update_learning_pace]
  split_ifs with h
  · rfl
  · unfold tailAtMost
    have h0 : (p.recent_times ++ [a.time_taken]).length - 20 = 0 := by
      simp only [List.length_append, List.length_cons, List.length_nil] at h ⊢
      omega
    rw [h0, List.drop_zero]

theorem pace_update (p : StudentProfile) (a : QuestionAttempt) :
    (update_learning_pace p a).learning_pace
      = paceOf ((update_learning_pace p a).recent_times) := rfl

/-! Field-level facts about one fully applied `record_attempt`. -/

theorem attempt_profile_total (p0 : StudentProfile) (a : QuestionAttempt) :
    (attempt_profile p0 a).total_questions = p0.total_questions + 1 := rfl

theorem attempt_profile_correct (p0 : StudentProfile) (a : QuestionAttempt) :
    (attempt_profile p0 a).correct_answers
      = p0.correct_answers + (if a.correct then 1 else 0) := rfl

theorem attempt_profile_recent_attempts (p0 : StudentProfile) (a : QuestionAttempt) :
    (attempt_profile p0 a).recent_attempts = p0.recent_attempts := rfl

theorem attempt_profile_recent_times (p0 : StudentProfile) (a : QuestionAttempt) :
    (attempt_profile p0 a).recent_times
      = tailAtMost 20 (p0.recent_times ++ [a.time_taken]) := by
  show (update_learning_pace _ a).recent_times = _
  rw [recent_times_update]
  rfl

theorem attempt_profile_pace (p0 : StudentProfile) (a : QuestionAttempt) :
    (attempt_profile p0 a).learning_pace = paceOf ((attempt_profile p0 a).recent_times) := rfl

theorem attempt_profile_buckets (p0 : StudentProfile) (a : QuestionAttempt)
    (hd : validDifficulty a.difficulty) :
    totalInBuckets (attempt_profile p0 a).topic_performance
      = totalInBuckets p0.topic_performance + 1 := by
  have htp : (attempt_profile p0 a).topic_performance
      = updateEntry a.topic (fun ts => ts.applyAttempt a.difficulty a.correct)
          (partial_profile p0 a).topic_performance := rfl
  have hpart : (partial_profile p0 a).topic_performance
      = if (alookup a.topic p0.topic_performance).isSome then p0.topic_performance
        else p0.topic_performance ++ [(a.topic, TopicStats.blank)] := rfl
  rw [htp, hpart]
  rw [totalInBuckets_updateEntry a.topic _ (fun ts => ttq_applyAttempt ts _ a.correct hd)
        _ (alookup_ensure_topic a.topic p0.topic_performance)]
  by_cases h : (alookup a.topic p0.topic_performance).isSome
  · simp [h]
  · simp [h, totalInBuckets_append_blank]

theorem attempt_profile_cognitive (p0 : StudentProfile) (a : QuestionAttempt) :
    (alookup a.cognitive_level (attempt_profile p0 a).cognitive_levels).isSome := by
  have hcl : (attempt_profile p0 a).cognitive_levels
      = if (alookup a.cognitive_level p0.cognitive_levels).isSome then
          updateEntry a.cognitive_level (fun b => b.record a.correct) p0.cognitive_levels
        else p0.cognitive_levels ++ [(a.cognitive_level, Bucket.record ⟨0, 0⟩ a.correct)] := rfl
  rw [hcl]
  by_cases h : (alookup a.cognitive_level p0.cognitive_levels).isSome
  · obtain ⟨v, hv⟩ := Option.isSome_iff_exists.mp h
    simp [h, alookup_updateEntry_self a.cognitive_level _ p0.cognitive_levels v hv]
  · have hn : alookup a.cognitive_level p0.cognitive_levels = none :=
      Option.not_isSome_iff_eq_none.mp h
    simp [h, alookup_append_of_none a.cognitive_level p0.cognitive_levels _ hn, alookup]

theorem record_attempt_ok (students : Students) (uid : String) (a : QuestionAttempt)
    (hd : validDifficulty a.difficulty) :
    record_attempt students uid a
      = .ok (Students.set students uid (attempt_profile (profileOf students uid) a)) := by
  unfold record_attempt
  rw [if_pos hd]

theorem record_attempt_err (students : Students) (uid : String) (a : QuestionAttempt)
    (hd : ¬ validDifficulty a.difficulty) :
    record_attempt students uid a
      = .error (Students.set students uid (partial_profile (profileOf students uid) a)) := by
  unfold record_attempt
  rw [if_neg hd]

/-- Invariants carried through a whole sequence of valid `record_attempt`
calls for one user, relative to an arbitrary starting state whose
`recent_times` for that user is already a bounded suffix. -/
theorem record_all_spec (uid : String) (attempts : List QuestionAttempt) :
    ∀ students : Students,
      (∀ a ∈ attempts, validDifficulty a.difficulty) →
      (profileOf students uid).recent_times
          = tailAtMost 20 ((profileOf students uid).recent_times) →
      ∃ s', record_all students uid attempts = .ok s' ∧
        (profileOf s' uid).total_questions
          = (profileOf students uid).total_questions + attempts.length ∧
        (profileOf s' uid).correct_answers
          = (profileOf students uid).correct_answers
              + (attempts.countP fun a => a.correct) ∧
        totalInBuckets (profileOf s' uid).topic_performance
          = totalInBuckets (profileOf students uid).topic_performance + attempts.length ∧
        (profileOf s' uid).recent_times
          = tailAtMost 20 ((profileOf students uid).recent_times
              ++ (attempts.map fun a => a.time_taken)) ∧
        (profileOf s' uid).recent_attempts = (profileOf students uid).recent_attempts ∧
        (attempts = [] → s' = students) ∧
        (attempts ≠ [] → (alookup uid s').isSome ∧
          (profileOf s' uid).learning_pace = paceOf ((profileOf s' uid).recent_times)) := by
  induction attempts with
  | nil =>
    intro students _ hr
    refine ⟨students, rfl, by simp, by simp, by simp, ?_, rfl, fun _ => rfl, by simp⟩
    simpa using hr
  | cons a rest ih =>
    intro students hvalid hr
    have hda : validDifficulty a.difficulty := hvalid a (List.mem_cons_self a rest)
    have hrest : ∀ b ∈ rest, validDifficulty b.difficulty :=
      fun b hb => hvalid b (List.mem_cons_of_mem a hb)
    set q := attempt_profile (profileOf students uid) a with hq
    have hstep : record_attempt students uid a
        = .ok (Students.set students uid q) := record_attempt_ok students uid a hda
    have hq_profile : profileOf (Students.set students uid q) uid = q :=
      profileOf_set_self students uid q
    have hq_recent : q.recent_times
        = tailAtMost 20 ((profileOf students uid).recent_times ++ [a.time_taken]) :=
      attempt_profile_recent_times _ a
    have hq_stable : q.recent_times = tailAtMost 20 q.recent_times := by
      rw [hq_recent, tailAtMost_idem]
    obtain ⟨s', hs', htot, hcorr, hbuck, hrec, hratt, _, hne⟩ :=
      ih (Students.set students uid q) hrest (by rw [hq_profile]; exact hq_stable)
    refine ⟨s', ?_, ?_, ?_, ?_, ?_, ?_, ?_, ?_⟩
    · show record_all students uid (a :: rest) = .ok s'
      unfold record_all at hs' ⊢
      rw [List.foldlM_cons, hstep]
      simpa using hs'
    · rw [htot, hq_profile, hq, attempt_profile_total]
      simp [List.length_cons]
      omega
    · rw [hcorr, hq_profile, hq, attempt_profile_correct]
      rw [List.countP_cons]
      cases ha : a.correct <;> (simp [ha]; try omega)
    · rw [hbuck, hq_profile, hq,
        attempt_profile_buckets (profileOf students uid) a hda]
      simp [List.length_cons]
      omega
    · rw [hrec, hq_profile, hq_recent, tailAtMost_append]
      simp
    · rw [hratt, hq_profile, hq, attempt_profile_recent_attempts]
    · intro hcon; cases hcon
    · intro _
      by_cases hrnil : rest = []
      · subst hrnil
        have heq : s' = Students.set students uid q := by
          have h0 := hs'
          unfold record_all at h0
          simp only [List.foldlM_nil] at h0
          injection h0.symm with h1
        constructor
        · rw [heq, alookup_set_self]
          rfl
        · rw [heq, hq_profile, hq]
          exact attempt_profile_pace _ a
      · exact hne hrnil

/-- C6: for every finite sequence of `record_attempt` calls for a user starting
from no profile (all with well-formed difficulties, as every profile state the
system builds requires), afterwards `total_questions` equals the number of
calls, `correct_answers` equals the number of correct attempts (hence
`correct_answers ≤ total_questions`), and `total_questions` equals the sum over
all topics and difficulty buckets of the per-bucket `total` counters. -/
theorem c6_record_attempt_counters (uid : String) (attempts : List QuestionAttempt)
    (hvalid : ∀ a ∈ attempts, validDifficulty a.difficulty) :
    ∃ s', record_all [] uid attempts = .ok s' ∧
      (profileOf s' uid).total_questions = attempts.length ∧
      (profileOf s' uid).correct_answers = (attempts.countP fun a => a.correct) ∧
      (profileOf s' uid).correct_answers ≤ (profileOf s' uid).total_questions ∧
      totalInBuckets (profileOf s' uid).topic_performance
        = (profileOf s' uid).total_questions ∧
      (attempts ≠ [] → (alookup uid s').isSome) := by
  have h0 : profileOf ([] : Students) uid = newProfile uid := rfl
  obtain ⟨s', hs', htot, hcorr, hbuck, _, _, _, hne⟩ :=
    record_all_spec uid attempts [] hvalid (by rw [h0]; rfl)
  refine ⟨s', hs', ?_, ?_, ?_, ?_, fun h => (hne h).1⟩
  · rw [htot, h0]; simp [newProfile]
  · rw [hcorr, h0]; simp [newProfile]
  · rw [htot, hcorr, h0]
    have : (attempts.countP fun a => a.correct) ≤ attempts.length :=
      List.countP_le_length _
    simp [newProfile]
    omega
  · rw [hbuck, htot, h0]
    simp [newProfile, totalInBuckets]

/-- C6 witness: the counter facts instantiated on a concrete two-attempt run. -/
theorem c6_record_attempt_counters_witness :
    (∀ a ∈ [recallAttempt,
            { recallAttempt with difficulty := "medium", correct := false }],
        validDifficulty a.difficulty) ∧
    (∃ s', record_all [] "u1"
          [recallAttempt,
           { recallAttempt with difficulty := "medium", correct := false }] = .ok s' ∧
      (profileOf s' "u1").total_questions
        = [recallAttempt,
           { recallAttempt with difficulty := "medium", correct := false }].length ∧
      (profileOf s' "u1").correct_answers
        = ([recallAttempt,
            { recallAttempt with difficulty := "medium", correct := false }].countP
             fun a => a.correct) ∧
      (profileOf s' "u1").correct_answers ≤ (profileOf s' "u1").total_questions ∧
      totalInBuckets (profileOf s' "u1").topic_performance
        = (profileOf s' "u1").total_questions ∧
      ([recallAttempt,
        { recallAttempt with difficulty := "medium", correct := false }] ≠ [] →
          (alookup "u1" s').isSome)) :=
  ⟨by decide, c6_record_attempt_counters "u1" _ (by decide)⟩

/-- C8: after every `record_attempt` call, `recent_times` holds exactly the
most recent at most 20 `time_taken` values in arrival order (oldest dropped
first) — hence never exceeds 20 elements — and `learning_pace` equals
`60 / mean(recent_times)` when that mean is strictly positive, else 0. -/
theorem c8_recent_times_window (uid : String) (attempts : List QuestionAttempt)
    (hvalid : ∀ a ∈ attempts, validDifficulty a.difficulty) :
    ∃ s', record_all [] uid attempts = .ok s' ∧
      (profileOf s' uid).recent_times
        = tailAtMost 20 (attempts.map fun a => a.time_taken) ∧
      (profileOf s' uid).recent_times.length ≤ 20 ∧
      (attempts ≠ [] →
        (profileOf s' uid).learning_pace
          = (if listMean ((profileOf s' uid).recent_times) > 0 then
               60 / listMean ((profileOf s' uid).recent_times) else 0)) := by
  have h0 : profileOf ([] : Students) uid = newProfile uid := rfl
  obtain ⟨s', hs', _, _, _, hrec, _, _, hne⟩ :=
    record_all_spec uid attempts [] hvalid (by rw [h0]; rfl)
  have hrt : (profileOf s' uid).recent_times
      = tailAtMost 20 (attempts.map fun a => a.time_taken) := by
    rw [hrec, h0]
    rfl
  refine ⟨s', hs', hrt, ?_, fun h => ?_⟩
  · rw [hrt]; exact tailAtMost_length_le 20 _
  · exact (hne h).2

/-- C8 witness: the window facts instantiated on a concrete 21-attempt run,
long enough to exercise the FIFO eviction. -/
theorem c8_recent_times_window_witness :
    (∀ a ∈ List.replicate 21 recallAttempt, validDifficulty a.difficulty) ∧
    (∃ s', record_all [] "u1" (List.replicate 21 recallAttempt) = .ok s' ∧
      (profileOf s' "u1").recent_times
        = tailAtMost 20 ((List.replicate 21 recallAttempt).map fun a => a.time_taken) ∧
      (profileOf s' "u1").recent_times.length ≤ 20 ∧
      (List.replicate 21 recallAttempt ≠ [] →
        (profileOf s' "u1").learning_pace
          = (if listMean ((profileOf s' "u1").recent_times) > 0 then
               60 / listMean ((profileOf s' "u1").recent_times) else 0))) :=
  ⟨by decide, c8_recent_times_window "u1" _ (by decide)⟩

theorem partial_profile_buckets (p0 : StudentProfile) (a : QuestionAttempt) :
    totalInBuckets (partial_profile p0 a).topic_performance
      = totalInBuckets p0.topic_performance := by
  have hpart : (partial_profile p0 a).topic_performance
      = if (alookup a.topic p0.topic_performance).isSome then p0.topic_performance
        else p0.topic_performance ++ [(a.topic, TopicStats.blank)] := rfl
  rw [hpart]
  by_cases h : (alookup a.topic p0.topic_performance).isSome
  · simp [h]
  · simp [h, totalInBuckets_append_blank]

/-- C10: for a user whose profile exists, `record_attempt` raises `KeyError`
exactly when the attempt difficulty is outside the three pre-initialized
buckets, leaving the attempt only partially applied in memory
(`total_questions` already incremented, no bucket counted, cognitive levels
and recent times untouched); an arbitrary cognitive-level string never raises
and its bucket exists after the call. -/
theorem c10_unknown_difficulty_raises (students : Students) (uid : String)
    (a : QuestionAttempt) (_hp : (alookup uid students).isSome) :
    (¬ validDifficulty a.difficulty →
      record_attempt students uid a
        = .error (Students.set students uid (partial_profile (profileOf students uid) a)) ∧
      (partial_profile (profileOf students uid) a).total_questions
        = (profileOf students uid).total_questions + 1 ∧
      totalInBuckets (partial_profile (profileOf students uid) a).topic_performance
        = totalInBuckets (profileOf students uid).topic_performance ∧
      (partial_profile (profileOf students uid) a).cognitive_levels
        = (profileOf students uid).cognitive_levels ∧
      (partial_profile (profileOf students uid) a).recent_times
        = (profileOf students uid).recent_times) ∧
    (validDifficulty a.difficulty →
      record_attempt students uid a
        = .ok (Students.set students uid (attempt_profile (profileOf students uid) a)) ∧
      (alookup a.cognitive_level
          (attempt_profile (profileOf students uid) a).cognitive_levels).isSome) := by
  constructor
  · intro hbad
    exact ⟨record_attempt_err students uid a hbad, rfl,
      partial_profile_buckets _ a, rfl, rfl⟩
  · intro hgood
    exact ⟨record_attempt_ok students uid a hgood, attempt_profile_cognitive _ a⟩

/-- C10 witness: the raising and non-raising halves instantiated at an
existing profile, with the difficulty string `expert` and the fresh
cognitive-level string `synthesis`. -/
theorem c10_unknown_difficulty_raises_witness :
    (alookup "u1" demoStudents).isSome ∧
    ((¬ validDifficulty badAttempt.difficulty →
      record_attempt demoStudents "u1" badAttempt
        = .error (Students.set demoStudents "u1"
            (partial_profile (profileOf demoStudents "u1") badAttempt)) ∧
      (partial_profile (profileOf demoStudents "u1") badAttempt).total_questions
        = (profileOf demoStudents "u1").total_questions + 1 ∧
      totalInBuckets (partial_profile (profileOf demoStudents "u1") badAttempt).topic_performance
        = totalInBuckets (profileOf demoStudents "u1").topic_performance ∧
      (partial_profile (profileOf demoStudents "u1") badAttempt).cognitive_levels
        = (profileOf demoStudents "u1").cognitive_levels ∧
      (partial_profile (profileOf demoStudents "u1") badAttempt).recent_times
        = (profileOf demoStudents "u1").recent_times) ∧
    (validDifficulty badAttempt.difficulty →
      record_attempt demoStudents "u1" badAttempt
        = .ok (Students.set demoStudents "u1"
            (attempt_profile (profileOf demoStudents "u1") badAttempt)) ∧
      (alookup badAttempt.cognitive_level
          (attempt_profile (profileOf demoStudents "u1") badAttempt).cognitive_levels).isSome)) ∧
    ¬ validDifficulty badAttempt.difficulty :=
  ⟨by decide, c10_unknown_difficulty_raises demoStudents "u1" badAttempt (by decide), by decide⟩

/-- C7: topic-scoped difficulty recommendation. An unknown user gets `medium`;
a known user with an unknown topic gets the global preferred difficulty; for a
known topic each bucket scores `correct/total` only with at least 3 attempts
(else 0) and the cascade is hard at ≥ 0.70, else medium at ≥ 0.60, else easy;
in particular a hard bucket with exactly 2 attempts — even all correct — never
yields `hard`. -/
theorem c7_recommended_difficulty (students : Students) (uid : String) (topic : String)
    (htopic : topic ≠ "") :
    (alookup uid students = none →
      get_recommended_difficulty students uid topic = "medium") ∧
    (∀ p, alookup uid students = some p →
      (alookup topic p.topic_performance = none →
        get_recommended_difficulty students uid topic = p.preferred_difficulty) ∧
      (∀ ts, alookup topic p.topic_performance = some ts →
        get_recommended_difficulty students uid topic
          = (if (if 3 ≤ ts.hard.total then (ts.hard.correct : ℚ) / ts.hard.total else 0)
                ≥ 7/10 then "hard"
             else if (if 3 ≤ ts.medium.total then (ts.medium.correct : ℚ) / ts.medium.total
                      else 0) ≥ 6/10 then "medium"
             else "easy") ∧
        (ts.hard.total = 2 → ts.hard.correct = 2 →
          get_recommended_difficulty students uid topic ≠ "hard"))) := by
  constructor
  · intro h
    unfold get_recommended_difficulty
    rw [h]
  · intro p hp
    have hbase : ∀ ts, alookup topic p.topic_performance = some ts →
        get_recommended_difficulty students uid topic
          = (if bucketTopicScore ts.hard ≥ 7/10 then "hard"
             else if bucketTopicScore ts.medium ≥ 6/10 then "medium"
             else "easy") := by
      intro ts hts
      unfold get_recommended_difficulty
      rw [hp]
      simp only [if_pos htopic, hts]
    refine ⟨?_, fun ts hts => ⟨?_, fun h2 hc2 => ?_⟩⟩
    · intro h
      unfold get_recommended_difficulty
      rw [hp]
      simp only [if_pos htopic, h]
    · rw [hbase ts hts]
      rfl
    · rw [hbase ts hts]
      have hsc : bucketTopicScore ts.hard = 0 := by
        unfold bucketTopicScore
        rw [h2]
        norm_num
      have h7 : ¬ ((0 : ℚ) ≥ 7/10) := by norm_num
      rw [hsc, if_neg h7]
      split_ifs <;> decide

/-- C7 witness: the recommendation facts instantiated on a profile whose
`Math` hard bucket holds exactly 2 attempts, both correct. -/
theorem c7_recommended_difficulty_witness :
    (("Math" : String) ≠ "") ∧
    ((alookup "u1" demoStudents2 = none →
      get_recommended_difficulty demoStudents2 "u1" "Math" = "medium") ∧
    (∀ p, alookup "u1" demoStudents2 = some p →
      (alookup "Math" p.topic_performance = none →
        get_recommended_difficulty demoStudents2 "u1" "Math" = p.preferred_difficulty) ∧
      (∀ ts, alookup "Math" p.topic_performance = some ts →
        get_recommended_difficulty demoStudents2 "u1" "Math"
          = (if (if 3 ≤ ts.hard.total then (ts.hard.correct : ℚ) / ts.hard.total else 0)
                ≥ 7/10 then "hard"
             else if (if 3 ≤ ts.medium.total then (ts.medium.correct : ℚ) / ts.medium.total
                      else 0) ≥ 6/10 then "medium"
             else "easy") ∧
        (ts.hard.total = 2 → ts.hard.correct = 2 →
          get_recommended_difficulty demoStudents2 "u1" "Math" ≠ "hard")))) :=
  ⟨by decide, c7_recommended_difficulty demoStudents2 "u1" "Math" (by decide)⟩

/-- C1 (code bug): `generate_adaptive_questions` reads
`getattr(profile, 'recent_attempts', [])`, but `record_attempt` never writes a
`recent_attempts` attribute, so the recent-performance window is always empty
and the escalation branch is dead. Here one correct attempt is recorded (the
most recent window of recorded attempts has accuracy 1.0 > 0.80) and the
long-term topic recommendation is `easy`, yet the call still returns `easy`
where the claim demands `hard`; the second component exhibits the empty
`recent_attempts` the branch actually sees. -/
theorem c1_recent_window_is_dead_code :
    (record_all [] "u1" [recallAttempt]).map
        (fun s => ((generate_adaptive_questions s "u1" "Math" 5).recommended_difficulty,
                   (profileOf s "u1").recent_attempts))
      = .ok ("easy", []) ∧ recallAttempt.correct = true := by
  constructor
  · norm_num [record_all, record_attempt, validDifficulty, attempt_profile, partial_profile,
      update_learning_pace, update_preferred_difficulty, avgDifficultyScore, paceOf, listMean,
      Students.set, alookup, updateEntry, profileOf, newProfile, recallAttempt,
      TopicStats.blank, TopicStats.applyAttempt, Bucket.record, generate_adaptive_questions,
      get_recommended_difficulty, bucketTopicScore, tailAtMost, Except.map]
  · decide

/-- C4 (code bug): the cognitive levels recorded by `record_attempt` are the
strings `recall`, `application`, `analysis` (see `llm_service.py` lines
140-143), but `get_strength_analysis` seeds its reported counts dict with the
difficulty keys `easy`, `medium`, `hard` and copies only those. After one
`recall` attempt the profile holds a `recall` tally of 1 (second component),
yet the analysis reports only the three difficulty keys, all zero, instead of
the per-cognitive-level attempt counts the claim describes. -/
theorem c4_cognitive_counts_use_difficulty_keys :
    (record_all [] "u1" [recallAttempt]).map
        (fun s => ((get_strength_analysis s "u1").cognitive_levels,
                   clTotal (profileOf s "u1").cognitive_levels "recall"))
      = .ok ([("easy", 0), ("medium", 0), ("hard", 0)], 1) := by
  norm_num [record_all, record_attempt, validDifficulty, attempt_profile, partial_profile,
    update_learning_pace, update_preferred_difficulty, avgDifficultyScore, paceOf, listMean,
    Students.set, alookup, updateEntry, profileOf, newProfile, recallAttempt,
    TopicStats.blank, TopicStats.applyAttempt, Bucket.record, get_strength_analysis,
    get_weak_topics, topicScores, topicTotalQuestions, topicTotalCorrect, clTotal,
    tailAtMost, Except.map]
  decide

/-- C2: with a non-empty retrieval result (non-negative distances), the
answerer computes confidence `max(0.1, 1 - mean(distance))`; when that
confidence is at least 0.3 and the LLM call succeeds, the result is the
curriculum-grounded one: `answer_type = "curriculum_based"`, a context-chunk
count equal to the number of chunks passed in, and sources equal to the
deduplicated set of originating document identifiers. -/
theorem c2_curriculum_grounded_branch (query : String) (chunks : List RetrievedChunk)
    (llm : LLM) (ans : String) (hne : chunks ≠ [])
    (_hdist : ∀ c ∈ chunks, 0 ≤ c.distance)
    (hconf : 3/10 ≤ contextConfidence chunks)
    (hllm : llm (curriculumPrompt (contextTextOf chunks) query) = .ok ans) :
    contextConfidence chunks
      = max (1/10) (1 - (chunks.map fun c => c.distance).sum / chunks.length) ∧
    (generate_answer_with_context query chunks llm).answer_type = "curriculum_based" ∧
    (generate_answer_with_context query chunks llm).context_chunks = some chunks.length ∧
    (generate_answer_with_context query chunks llm).sources
      = (chunks.map fun c => c.pdf_filename.getD "Unknown").toFinset ∧
    (generate_answer_with_context query chunks llm).answer = ans := by
  have hres : generate_answer_with_context query chunks llm
      = { answer := ans, confidence := round2 (contextConfidence chunks),
          sources := (chunks.map fun c => c.pdf_filename.getD "Unknown").toFinset,
          context_chunks := some chunks.length, answer_type := "curriculum_based" } := by
    unfold generate_answer_with_context
    rw [if_neg hne, if_neg (not_lt.mpr hconf), hllm]
  rw [hres]
  exact ⟨rfl, rfl, rfl, rfl, rfl⟩

/-- C2 witness: the curriculum branch on two concrete chunks from the same
document, mean distance 1/5 and confidence 4/5. -/
theorem c2_curriculum_grounded_branch_witness :
    demoChunks ≠ [] ∧ (∀ c ∈ demoChunks, 0 ≤ c.distance) ∧
    3/10 ≤ contextConfidence demoChunks ∧
    (contextConfidence demoChunks
      = max (1/10) (1 - (demoChunks.map fun c => c.distance).sum / demoChunks.length) ∧
    (generate_answer_with_context "what is photosynthesis" demoChunks demoLLM).answer_type
      = "curriculum_based" ∧
    (generate_answer_with_context "what is photosynthesis" demoChunks demoLLM).context_chunks
      = some demoChunks.length ∧
    (generate_answer_with_context "what is photosynthesis" demoChunks demoLLM).sources
      = (demoChunks.map fun c => c.pdf_filename.getD "Unknown").toFinset ∧
    (generate_answer_with_context "what is photosynthesis" demoChunks demoLLM).answer
      = "the answer") := by
  have hconf : contextConfidence demoChunks = 4/5 := by
    unfold contextConfidence meanDistance demoChunks
    norm_num
  refine ⟨by simp [demoChunks], ?_, by rw [hconf]; norm_num, ?_⟩
  · intro c hc
    simp only [demoChunks, List.mem_cons, List.not_mem_nil, or_false] at hc
    rcases hc with h | h <;> (subst h; norm_num)
  · exact c2_curriculum_grounded_branch "what is photosynthesis" demoChunks demoLLM
      "the answer" (by simp [demoChunks])
      (by intro c hc
          simp only [demoChunks, List.mem_cons, List.not_mem_nil, or_false] at hc
          rcases hc with h | h <;> (subst h; norm_num))
      (by rw [hconf]; norm_num) rfl

/-- C3: when the retriever returns zero chunks, or chunks whose computed
confidence is below 0.3, the result (on a successful LLM call) is the
general-knowledge one with confidence exactly 0.7 in both cases; with zero
chunks the sources are exactly the singleton General Knowledge. -/
theorem c3_general_knowledge_fallback (query : String) (chunks : List RetrievedChunk)
    (llm : LLM) (ansEmpty ansLow : String) :
    (llm (gkPromptPlain query) = .ok ansEmpty →
      (generate_answer_with_context query [] llm).answer_type = "general_knowledge" ∧
      (generate_answer_with_context query [] llm).confidence = 7/10 ∧
      (generate_answer_with_context query [] llm).sources = {"General Knowledge"}) ∧
    (chunks ≠ [] → contextConfidence chunks < 3/10 →
      llm (gkPromptWithContext (contextTextOf (chunks.take 2)) query) = .ok ansLow →
      (generate_answer_with_context query chunks llm).answer_type = "general_knowledge" ∧
      (generate_answer_with_context query chunks llm).confidence = 7/10) := by
  constructor
  · intro hllm
    have hres : generate_answer_with_context query [] llm
        = { answer := ansEmpty, confidence := 7/10, sources := {"General Knowledge"},
            context_chunks := some 0, answer_type := "general_knowledge" } := by
      unfold generate_answer_with_context generate_general_knowledge_answer
      rw [if_pos rfl, if_neg (by simp)]
      dsimp only
      rw [hllm]
      rfl
    rw [hres]
    exact ⟨rfl, rfl, rfl⟩
  · intro hne hlow hllm
    have hres : generate_answer_with_context query chunks llm
        = { answer := ansLow, confidence := 7/10, sources := {"General Knowledge"},
            context_chunks := some chunks.length, answer_type := "general_knowledge" } := by
      unfold generate_answer_with_context generate_general_knowledge_answer
      rw [if_neg hne, if_pos hlow, if_pos hne]
      dsimp only
      rw [hllm]
    rw [hres]
    exact ⟨rfl, rfl⟩

/-- C3 witness: the zero-chunk branch and the low-confidence branch (one far
chunk, confidence floored at 1/10 < 3/10) instantiated with a live LLM, with
the branch conditions discharged concretely. -/
theorem c3_general_knowledge_fallback_witness :
    contextConfidence demoFarChunks < 3/10 ∧
    ((generate_answer_with_context "who was Ashoka" [] demoLLM).answer_type
        = "general_knowledge" ∧
      (generate_answer_with_context "who was Ashoka" [] demoLLM).confidence = 7/10 ∧
      (generate_answer_with_context "who was Ashoka" [] demoLLM).sources
        = {"General Knowledge"}) ∧
    ((generate_answer_with_context "who was Ashoka" demoFarChunks demoLLM).answer_type
        = "general_knowledge" ∧
      (generate_answer_with_context "who was Ashoka" demoFarChunks demoLLM).confidence
        = 7/10) := by
  have hlow : contextConfidence demoFarChunks < 3/10 := by
    unfold contextConfidence meanDistance demoFarChunks
    norm_num
  have h := c3_general_knowledge_fallback "who was Ashoka" demoFarChunks demoLLM
    "the answer" "the answer"
  exact ⟨hlow, h.1 rfl, h.2 (by simp [demoFarChunks]) hlow rfl⟩

/-- C5: when every generate call of the external LLM raises, `process_question`
does not raise to the caller and returns the terminal error result:
`answer_type = "error"`, confidence 0, empty sources. -/
theorem c5_llm_exception_contained (query : String) (retrieved : List RetrievedChunk)
    (llm : LLM) (err : String) (hfail : ∀ prompt, llm prompt = .error err) :
    (process_question query retrieved llm).answer_type = "error" ∧
    (process_question query retrieved llm).confidence = 0 ∧
    (process_question query retrieved llm).sources = ∅ := by
  unfold process_question generate_answer_with_context generate_general_knowledge_answer
  simp only [hfail]
  split_ifs <;> exact ⟨rfl, rfl, rfl⟩

/-- C5 witness: the error containment instantiated with a failing LLM and a
non-empty, high-confidence retrieval (the curriculum branch is the one that
fails). -/
theorem c5_llm_exception_contained_witness :
    (∀ prompt, failLLM prompt = .error "connection error") ∧
    ((process_question "what is photosynthesis" demoChunks failLLM).answer_type = "error" ∧
    (process_question "what is photosynthesis" demoChunks failLLM).confidence = 0 ∧
    (process_question "what is photosynthesis" demoChunks failLLM).sources = ∅) :=
  ⟨fun _ => rfl, c5_llm_exception_contained "what is photosynthesis" demoChunks failLLM
    "connection error" (fun _ => rfl)⟩

theorem nodup_keys_inj {β : Type} :
    ∀ l : List (String × β), (l.map Prod.fst).Nodup →
      ∀ e1, e1 ∈ l → ∀ e2, e2 ∈ l → e1.1 = e2.1 → e1 = e2 := by
  intro l
  induction l with
  | nil => intro _ e1 h1; exact absurd h1 (List.not_mem_nil e1)
  | cons e rest ih =>
    intro hnd e1 h1 e2 h2 hk
    simp only [List.map_cons, List.nodup_cons] at hnd
    rcases List.mem_cons.mp h1 with he1 | h1r
    · rcases List.mem_cons.mp h2 with he2 | h2r
      · rw [he1, he2]
      · exfalso
        apply hnd.1
        rw [he1] at hk
        rw [hk]
        exact List.mem_map.mpr ⟨e2, h2r, rfl⟩
    · rcases List.mem_cons.mp h2 with he2 | h2r
      · exfalso
        apply hnd.1
        rw [he2] at hk
        rw [← hk]
        exact List.mem_map.mpr ⟨e1, h1r, rfl⟩
      · exact ih hnd.2 e1 h1r e2 h2r hk

/-- C9: a topic is scored by `get_weak_topics` exactly when it has at least 5
attempts summed across its difficulty buckets (so a topic with only 4 attempts
never appears, even at 0% accuracy); every returned pair carries that topic
overall accuracy, the returned list is sorted by accuracy ascending, holds at
most `limit` pairs, and holds every eligible topic whenever `limit` covers
them all. -/
theorem c9_weak_topics_threshold_sorted (students : Students) (uid : String) (limit : Nat)
    (p : StudentProfile) (hp : alookup uid students = some p)
    (hnodup : (p.topic_performance.map Prod.fst).Nodup) :
    (∀ pr ∈ get_weak_topics students uid limit, ∃ e, e ∈ p.topic_performance ∧
        pr.1 = e.1 ∧ 5 ≤ topicTotalQuestions e.2 ∧
        pr.2 = (topicTotalCorrect e.2 : ℚ) / topicTotalQuestions e.2) ∧
    (∀ e ∈ p.topic_performance, 5 ≤ topicTotalQuestions e.2 →
      (topicScores p).length ≤ limit →
      (e.1, (topicTotalCorrect e.2 : ℚ) / topicTotalQuestions e.2)
        ∈ get_weak_topics students uid limit) ∧
    (∀ e ∈ p.topic_performance, topicTotalQuestions e.2 < 5 →
      ∀ sc, (e.1, sc) ∉ get_weak_topics students uid limit) ∧
    List.Pairwise scoreLE (get_weak_topics students uid limit) ∧
    (get_weak_topics students uid limit).length ≤ limit := by
  have hres : get_weak_topics students uid limit
      = (List.insertionSort scoreLE (topicScores p)).take limit := by
    unfold get_weak_topics
    rw [hp]
  have hmem_scores : ∀ pr : String × ℚ, pr ∈ topicScores p ↔
      ∃ e, e ∈ p.topic_performance ∧ 5 ≤ topicTotalQuestions e.2 ∧
        pr = (e.1, (topicTotalCorrect e.2 : ℚ) / topicTotalQuestions e.2) := by
    intro pr
    unfold topicScores
    rw [List.mem_filterMap]
    constructor
    · rintro ⟨e, he, hfe⟩
      by_cases h5 : 5 ≤ topicTotalQuestions e.2
      · rw [if_pos h5] at hfe
        exact ⟨e, he, h5, (Option.some.inj hfe).symm⟩
      · rw [if_neg h5] at hfe
        cases hfe
    · rintro ⟨e, he, h5, rfl⟩
      exact ⟨e, he, by rw [if_pos h5]⟩
  have hfwd : ∀ pr ∈ get_weak_topics students uid limit, ∃ e, e ∈ p.topic_performance ∧
      pr.1 = e.1 ∧ 5 ≤ topicTotalQuestions e.2 ∧
      pr.2 = (topicTotalCorrect e.2 : ℚ) / topicTotalQuestions e.2 := by
    intro pr hpr
    rw [hres] at hpr
    have h1 : pr ∈ List.insertionSort scoreLE (topicScores p) :=
      List.mem_of_mem_take hpr
    have h2 : pr ∈ topicScores p := (List.mem_insertionSort scoreLE).mp h1
    obtain ⟨e, he, h5, hpe⟩ := (hmem_scores pr).mp h2
    exact ⟨e, he, by rw [hpe], h5, by rw [hpe]⟩
  refine ⟨hfwd, ?_, ?_, ?_, ?_⟩
  · intro e he h5 hlim
    rw [hres]
    have hin : (e.1, (topicTotalCorrect e.2 : ℚ) / topicTotalQuestions e.2)
        ∈ List.insertionSort scoreLE (topicScores p) :=
      (List.mem_insertionSort scoreLE).mpr ((hmem_scores _).mpr ⟨e, he, h5, rfl⟩)
    rw [List.take_of_length_le]
    · exact hin
    · rw [(List.perm_insertionSort scoreLE (topicScores p)).length_eq]
      exact hlim
  · intro e he hlt sc hmem
    obtain ⟨e', he', hk, h5, -⟩ := hfwd (e.1, sc) hmem
    have : e = e' := nodup_keys_inj p.topic_performance hnodup e he e' he' hk
    rw [← this] at h5
    omega
  · rw [hres]
    exact (List.sorted_insertionSort scoreLE (topicScores p)).sublist
      (List.take_sublist limit _)
  · rw [hres]
    exact List.length_take_le limit _

/-- C9 witness: the weak-topic facts instantiated on a profile holding an
eligible topic (Science, 5 attempts), a 4-attempt 0% topic (Algebra) that must
not appear, and a 2-attempt topic (Math). -/
theorem c9_weak_topics_threshold_sorted_witness :
    alookup "u1" demoStudents2 = some demoProfile ∧
    (demoProfile.topic_performance.map Prod.fst).Nodup ∧
    ((∀ pr ∈ get_weak_topics demoStudents2 "u1" 3, ∃ e, e ∈ demoProfile.topic_performance ∧
        pr.1 = e.1 ∧ 5 ≤ topicTotalQuestions e.2 ∧
        pr.2 = (topicTotalCorrect e.2 : ℚ) / topicTotalQuestions e.2) ∧
    (∀ e ∈ demoProfile.topic_performance, 5 ≤ topicTotalQuestions e.2 →
      (topicScores demoProfile).length ≤ 3 →
      (e.1, (topicTotalCorrect e.2 : ℚ) / topicTotalQuestions e.2)
        ∈ get_weak_topics demoStudents2 "u1" 3) ∧
    (∀ e ∈ demoProfile.topic_performance, topicTotalQuestions e.2 < 5 →
      ∀ sc, (e.1, sc) ∉ get_weak_topics demoStudents2 "u1" 3) ∧
    List.Pairwise scoreLE (get_weak_topics demoStudents2 "u1" 3) ∧
    (get_weak_topics demoStudents2 "u1" 3).length ≤ 3) :=
  ⟨rfl, by decide,
   c9_weak_topics_threshold_sorted demoStudents2 "u1" 3 demoProfile rfl (by decide)⟩

end AITutor
